import Mathlib

/-!
Verification development for the synchronous wrapper in
`src/whitemax/app/max_client_wrapper.py`.

The wrapper drives an asynchronous chat-protocol client from a blocking
call/response surface.  We shallowly embed the pieces of the wrapper that
carry its interesting behaviour: tolerant value coercion and time
normalization, the message-record conversion, the chat-list merge, the
login / history-fetch retry loops (with the outcomes of the external
client calls supplied as oracles), the atomic event emission, the
exception boundary of the foreground operations, the execution-loop
submission guard, the stop ordering, and the session-guard lock
discipline as a small transition system.
-/

set_option linter.unusedVariables false

/-- Dynamic Python value as seen by the wrapper's tolerant field
extraction.  `PyVal.none` doubles as an absent field (the code treats a
missing field and a field holding `None` identically via
`_get_field(..., default=None)`).  Python floats and `datetime.timestamp()`
results are modelled as rationals. -/
inductive PyVal where
  | none
  | bool (b : Bool)
  | int (n : Int)
  | float (q : ℚ)
  | str (s : String)
  | dt (seconds : ℚ)
  deriving DecidableEq, Repr

/-- Character-list prefix test (structural, so that concrete instances
reduce in the kernel). -/
def leadsWith : List Char → List Char → Bool
  | [], _ => true
  | _ :: _, [] => false
  | p :: ps, c :: cs => p == c && leadsWith ps cs

/-- Character-list substring test. -/
def hasSubList (s pat : List Char) : Bool :=
  match s with
  | [] => pat.isEmpty
  | _ :: rest => leadsWith pat s || hasSubList rest pat

/-- Substring test, mirroring the Python `pat in s` operator (for the
non-empty patterns the wrapper uses). -/
def strContains (s pat : String) : Bool :=
  hasSubList s.data pat.data

/-- ASCII lower-casing of one character.  The wrapper's `.lower()` calls
feed substring matches whose patterns are ASCII or already-lowercase
Cyrillic, so ASCII folding is faithful for every comparison made here. -/
def charLower (c : Char) : Char :=
  if 'A' ≤ c ∧ c ≤ 'Z' then Char.ofNat (c.toNat + 32) else c

/-- Python `s.lower()` (ASCII fold, see `charLower`). -/
def strLower (s : String) : String :=
  String.mk (s.data.map charLower)

/-- Whitespace trim over characters, mirroring Python `str.strip()`. -/
def trimChars (l : List Char) : List Char :=
  ((l.dropWhile Char.isWhitespace).reverse.dropWhile Char.isWhitespace).reverse

/-- Digit-string to number (only used under an all-digits guard). -/
def digitsToNat (l : List Char) : Nat :=
  l.foldl (fun a c => 10 * a + (c.toNat - Char.toNat '0')) 0

/-- Python truthiness of a dynamic value (`bool(v)`), as used by the
wrapper's `v or default` idioms. -/
def pyTruthy : PyVal → Bool
  | PyVal.none => false
  | PyVal.bool b => b
  | PyVal.int n => n != 0
  | PyVal.float q => q != 0
  | PyVal.str s => s != ""
  | PyVal.dt _ => true

/-- Truncation toward zero, mirroring Python `int()` applied to a float. -/
def ratTruncToInt (q : ℚ) : Int :=
  if 0 ≤ q then Int.floor q else Int.ceil q

/-- Parse an integer literal the way Python `int(str)` does: surrounding
whitespace and an optional sign are allowed, otherwise only digits. -/
def pyParseIntStr (v : String) : Option Int :=
  match trimChars v.data with
  | [] => Option.none
  | c :: rest =>
    if c = '-' then
      if rest ≠ [] ∧ rest.all Char.isDigit then Option.some (-(digitsToNat rest : Int))
      else Option.none
    else if c = '+' then
      if rest ≠ [] ∧ rest.all Char.isDigit then Option.some (digitsToNat rest : Int)
      else Option.none
    else
      if (c :: rest).all Char.isDigit then Option.some (digitsToNat (c :: rest) : Int)
      else Option.none

/-- Python `int(v)` on a dynamic value: succeeds on bools, ints, floats
(truncating) and well-formed numeric strings, raises otherwise. -/
def pyInt : PyVal → Except String Int
  | PyVal.bool b => Except.ok (if b then 1 else 0)
  | PyVal.int n => Except.ok n
  | PyVal.float q => Except.ok (ratTruncToInt q)
  | PyVal.str v =>
    match pyParseIntStr v with
    | Option.some n => Except.ok n
    | Option.none => Except.error "invalid literal for int()"
  | PyVal.none => Except.error "int() argument is None"
  | PyVal.dt _ => Except.error "int() argument is a datetime"

/-- Python `str(v)` on a dynamic value (the exact text for non-string
values is irrelevant to the properties proved below; it only matters that
the conversion is total). -/
def pyStr : PyVal → String
  | PyVal.none => "None"
  | PyVal.bool b => if b then "True" else "False"
  | PyVal.int n => toString n
  | PyVal.float q => toString q
  | PyVal.str s => s
  | PyVal.dt q => toString q

/-- A raised Python exception: its class name and its message text, the
two pieces the wrapper's error classifiers inspect. -/
structure PyErr where
  typeName : String
  msg : String
  deriving DecidableEq, Repr

/-! ## Error classification in `login_with_code` -/

/-- Embeds `_is_code_invalid_error` (max_client_wrapper.py:693-701):
server said the code is stale / a new one must be requested / the
attempt limit was hit. -/
def isCodeInvalidError (e : PyErr) : Bool :=
  let s := strLower e.msg
  strContains s "этот код устарел" || strContains s "получите новый" ||
    strContains s "attempt.limit" || strContains s "error.code.attempt.limit"

/-- Embeds `_is_send_and_wait_error` (max_client_wrapper.py:703-713): the
code submission may have reached the server but no response was seen. -/
def isSendAndWaitError (e : PyErr) : Bool :=
  let t := strLower e.typeName
  let s := strLower e.msg
  strContains t "socketsenderror" || strContains s "send and wait failed" ||
    strContains s "opcode=opcode.auth" || strContains s "opcode.auth"

/-- Embeds the connection-error test of `login_with_code`
(max_client_wrapper.py:797-801). -/
def isLoginConnectionError (e : PyErr) : Bool :=
  (["SocketNotConnectedError", "SSLEOFError", "SSLError", "ConnectionError"].contains
      e.typeName) ||
    (["not connected", "eof", "timeout", "connection"].any
      (fun k => strContains (strLower e.msg) k))

/-- Structured result of the login operation. -/
structure LoginResult where
  success : Bool
  requires_new_code : Bool
  error : Option String
  deriving DecidableEq, Repr

/-- The code after the retry loop of `login_with_code`
(max_client_wrapper.py:818-867): with a token present the login is
reported successful, otherwise a failure is returned. -/
def loginPostLoop (tokenPresent : Bool) : LoginResult :=
  if tokenPresent then
    { success := true, requires_new_code := false, error := Option.none }
  else
    { success := false, requires_new_code := false,
      error := Option.some "Login failed: token not available" }

/-- Result text of the send-and-wait branch (max_client_wrapper.py:787-794). -/
def sendAndWaitErrorText (e : PyErr) : String :=
  e.typeName ++
    ": Connection dropped while submitting the code. Please request a new code and try again. Details: " ++
    e.msg

/-- Embeds the submission/retry loop of `login_with_code`
(max_client_wrapper.py:754-816) with `max_retries = 2`.  `o1` and `o2`
are the outcomes of the first and (if reached) second call of
`client.login_with_code` (`Option.none` = the call succeeded),
`reconnectOk` is the outcome of the reconnect performed before a retry.
The second component counts how many times the code was submitted to the
client. -/
def loginSubmitLoop (o1 o2 : Option PyErr) (reconnectOk : Bool) (tokenPresent : Bool) :
    LoginResult × Nat :=
  match o1 with
  | Option.none => (loginPostLoop tokenPresent, 1)
  | Option.some e1 =>
    if isCodeInvalidError e1 then
      ({ success := false, requires_new_code := true, error := Option.some e1.msg }, 1)
    else if isSendAndWaitError e1 then
      ({ success := false, requires_new_code := true,
         error := Option.some (sendAndWaitErrorText e1) }, 1)
    else if isLoginConnectionError e1 then
      if reconnectOk then
        match o2 with
        | Option.none => (loginPostLoop tokenPresent, 2)
        | Option.some e2 =>
          if isCodeInvalidError e2 then
            ({ success := false, requires_new_code := true, error := Option.some e2.msg }, 2)
          else if isSendAndWaitError e2 then
            ({ success := false, requires_new_code := true,
               error := Option.some (sendAndWaitErrorText e2) }, 2)
          else
            ({ success := false, requires_new_code := false, error := Option.some e2.msg }, 2)
      else
        ({ success := false, requires_new_code := false,
           error := Option.some "Reconnection failed" }, 1)
    else
      ({ success := false, requires_new_code := false, error := Option.some e1.msg }, 1)

/-- C2: if the first submission of the code fails with an error classified
as a server rejection of the code or as an ambiguous send, then
`login_with_code` returns `success = false` with `requires_new_code = true`
and the code was submitted to the client exactly once, for every outcome
of the remaining oracles. -/
theorem login_classified_failure_single_submission
    (e1 : PyErr) (o2 : Option PyErr) (reconnectOk tokenPresent : Bool)
    (h : isCodeInvalidError e1 = true ∨ isSendAndWaitError e1 = true) :
    (loginSubmitLoop (Option.some e1) o2 reconnectOk tokenPresent).1.success = false ∧
    (loginSubmitLoop (Option.some e1) o2 reconnectOk tokenPresent).1.requires_new_code = true ∧
    (loginSubmitLoop (Option.some e1) o2 reconnectOk tokenPresent).2 = 1 := by
  rcases h with h | h
  · simp [loginSubmitLoop, h]
  · by_cases hc : isCodeInvalidError e1 = true
    · simp [loginSubmitLoop, hc]
    · simp [loginSubmitLoop, h, hc]

/-- Witness for C2: a concrete ambiguous-send failure on the first
submission. -/
theorem login_classified_failure_single_submission_witness :
    (loginSubmitLoop
        (Option.some { typeName := "SocketSendError",
                       msg := "send and wait failed: opcode=Opcode.AUTH" })
        Option.none false true).1.success = false ∧
    (loginSubmitLoop
        (Option.some { typeName := "SocketSendError",
                       msg := "send and wait failed: opcode=Opcode.AUTH" })
        Option.none false true).1.requires_new_code = true ∧
    (loginSubmitLoop
        (Option.some { typeName := "SocketSendError",
                       msg := "send and wait failed: opcode=Opcode.AUTH" })
        Option.none false true).2 = 1 :=
  login_classified_failure_single_submission
    { typeName := "SocketSendError", msg := "send and wait failed: opcode=Opcode.AUTH" }
    Option.none false true (Or.inr (by decide))

/-! ## Retry policy of the idempotent history fetch (`_get_messages`) -/

/-- Embeds the connection-error test of `_get_messages`
(max_client_wrapper.py:1167-1174); the `isinstance` checks cover the same
exception classes as the name list. -/
def isGmConnectionError (e : PyErr) : Bool :=
  (["SocketNotConnectedError", "SocketSendError", "SSLEOFError", "SSLError",
      "ConnectionError"].contains e.typeName) ||
    (["not connected", "socket", "eof", "connection", "send and wait failed"].any
      (fun k => strContains (strLower e.msg) k))

/-- Structured result of the history fetch. -/
structure GmResult where
  success : Bool
  error : Option String
  deriving DecidableEq, Repr

/-- Embeds the fetch/retry loop of `_get_messages`
(max_client_wrapper.py:1142-1214) with `max_retries = 3`.
`outcome i` is the result of the `i`-th `fetch_history` call
(`Option.none` = it returned the history), `reconnect k` the outcome of
the `k`-th `_ensure_connected` call made by the loop.  `connected`
tracks `client.is_connected`; an exception from the reconnect performed
at the top of an iteration propagates to the outer boundary, which turns
it into a failure result.  Returns the result, the number of
`fetch_history` attempts made, and the list of backoff delays slept
(`0.5 * retry_count` time units, as rationals). -/
def fetchHistoryGo (outcome : Nat → Option PyErr) (reconnect : Nat → Bool)
    (retry idx : Nat) (connected : Bool) (rIdx : Nat) (delays : List ℚ) :
    GmResult × Nat × List ℚ :=
  if connected = false ∧ reconnect rIdx = false then
    ({ success := false, error := Option.some "reconnect failed" }, idx, delays)
  else
    match outcome idx with
    | Option.none => ({ success := true, error := Option.none }, idx + 1, delays)
    | Option.some e =>
      if isGmConnectionError e then
        if h : retry + 1 < 3 then
          if reconnect ((if connected then rIdx else rIdx + 1)) then
            fetchHistoryGo outcome reconnect (retry + 1) (idx + 1) true
              ((if connected then rIdx else rIdx + 1) + 1)
              (delays ++ [((retry + 1 : ℕ) : ℚ) / 2])
          else
            fetchHistoryGo outcome reconnect (retry + 1) (idx + 1) false
              ((if connected then rIdx else rIdx + 1) + 1)
              (delays ++ [((retry + 1 : ℕ) : ℚ) / 2])
        else
          ({ success := false,
             error := Option.some ("Failed after 3 reconnection attempts: " ++ e.msg) },
           idx + 1, delays)
      else
        ({ success := false, error := Option.some e.msg }, idx + 1, delays)
termination_by 3 - retry
decreasing_by
  · omega
  · omega

/-- Entry point of the fetch loop: `retry_count = 0`, first attempt, the
socket live after the initial `_ensure_connected`. -/
def fetchHistoryLoop (outcome : Nat → Option PyErr) (reconnect : Nat → Bool) :
    GmResult × Nat × List ℚ :=
  fetchHistoryGo outcome reconnect 0 0 true 0 []

/-- C3: with two connection-classified failures followed by a success the
history fetch returns success after exactly 3 attempts with backoff
delays 0.5 and 1.0; a non-connection-classified failure on any attempt
returns a failure immediately with no further attempt. -/
theorem get_messages_retry_policy
    (outcome : Nat → Option PyErr) (reconnect : Nat → Bool) (c0 c1 e : PyErr)
    (h0 : outcome 0 = Option.some c0) (h1 : outcome 1 = Option.some c1)
    (h2 : outcome 2 = Option.none)
    (hc0 : isGmConnectionError c0 = true) (hc1 : isGmConnectionError c1 = true)
    (hr : ∀ k, reconnect k = true) :
    fetchHistoryLoop outcome reconnect =
      ({ success := true, error := Option.none }, 3, [(1 : ℚ) / 2, 1]) ∧
    (∀ outcome2 : Nat → Option PyErr, ∀ reconnect2 : Nat → Bool,
      ∀ retry idx rIdx : Nat, ∀ delays : List ℚ,
      outcome2 idx = Option.some e → isGmConnectionError e = false →
      fetchHistoryGo outcome2 reconnect2 retry idx true rIdx delays =
        ({ success := false, error := Option.some e.msg }, idx + 1, delays)) := by
  constructor
  · unfold fetchHistoryLoop
    rw [fetchHistoryGo]
    simp only [hr, h0, hc0, if_true, if_pos]
    rw [fetchHistoryGo]
    simp only [hr, h1, hc1, if_true, if_pos]
    rw [fetchHistoryGo]
    simp only [hr, h2]
    norm_num
  · intro outcome2 reconnect2 retry idx rIdx delays ho he
    rw [fetchHistoryGo]
    simp [ho, he]

/-- Witness for C3: concrete oracles with two "not connected" failures
then a success, and a concrete non-connection failure. -/
theorem get_messages_retry_policy_witness :
    fetchHistoryLoop
        (fun i => if i < 2
          then Option.some { typeName := "SocketNotConnectedError", msg := "not connected" }
          else Option.none)
        (fun _ => true) =
      ({ success := true, error := Option.none }, 3, [(1 : ℚ) / 2, 1]) ∧
    fetchHistoryGo (fun _ => Option.some { typeName := "ValueError", msg := "bad chat" })
        (fun _ => true) 0 0 true 0 [] =
      ({ success := false, error := Option.some "bad chat" }, 1, []) := by
  have h := get_messages_retry_policy
    (fun i => if i < 2
      then Option.some { typeName := "SocketNotConnectedError", msg := "not connected" }
      else Option.none)
    (fun _ => true)
    { typeName := "SocketNotConnectedError", msg := "not connected" }
    { typeName := "SocketNotConnectedError", msg := "not connected" }
    { typeName := "ValueError", msg := "bad chat" }
    (by decide) (by decide) (by decide) (by decide) (by decide) (fun k => rfl)
  exact ⟨h.1, h.2 (fun _ => Option.some { typeName := "ValueError", msg := "bad chat" })
    (fun _ => true) 0 0 0 [] rfl (by decide)⟩

/-! ## Time normalization and message conversion -/

/-- ASCII upper-casing of one character (used by the `.upper()`
comparisons against ASCII literals such as "REPLY" and "PHOTO"). -/
def charUpper (c : Char) : Char :=
  if 'a' ≤ c ∧ c ≤ 'z' then Char.ofNat (c.toNat - 32) else c

/-- Python `s.upper()` (ASCII fold, see `charUpper`). -/
def strUpper (s : String) : String :=
  String.mk (s.data.map charUpper)

/-- Embeds `_normalize_time_to_int_ms` (max_client_wrapper.py:107-126):
bools first (as in the source, since Python bool is a subclass of int),
ints and floats truncated via `int()`, datetimes converted through
`timestamp() * 1000`, digit-only strings parsed, anything else absent. -/
def normalize_time_to_int_ms : PyVal → Option Int
  | PyVal.none => Option.none
  | PyVal.bool b => Option.some (if b then 1 else 0)
  | PyVal.int n => Option.some n
  | PyVal.float q => Option.some (ratTruncToInt q)
  | PyVal.dt secs => Option.some (ratTruncToInt (secs * 1000))
  | PyVal.str v =>
    let t := trimChars v.data
    if t ≠ [] ∧ t.all Char.isDigit then Option.some (digitsToNat t : Int)
    else Option.none

/-- Python `a or b` on optional ints (`None` and `0` are falsy), as used
for `time_ms` (max_client_wrapper.py:149). -/
def pyOrOptInt (a b : Option Int) : Option Int :=
  match a with
  | Option.some k => if k = 0 then b else Option.some k
  | Option.none => b

/-- A reply link record (`msg.link`). -/
structure RawLink where
  type : PyVal
  message_id : PyVal
  deriving DecidableEq, Repr

/-- A reaction counter record (`msg.reactionInfo.counters[i]`). -/
structure RawReactionCounter where
  reaction : PyVal
  count : PyVal
  deriving DecidableEq, Repr

/-- An attachment record (`msg.attaches[i]`), with the fields the
conversion reads for the PHOTO / FILE / VIDEO variants. -/
structure RawAttach where
  type : PyVal
  photo_id : PyVal
  base_url : PyVal
  file_id : PyVal
  name : PyVal
  size : PyVal
  video_id : PyVal
  thumbnail : PyVal
  deriving DecidableEq, Repr

/-- A raw message record as consumed by `_message_to_dict`.  `PyVal.none`
models an absent field; `Option.none` for `link` / `reaction_counters` /
`attaches` models an absent (or non-list) composite field. -/
structure RawMsg where
  id : PyVal
  chat_id : PyVal
  text : PyVal
  sender : PyVal
  time : PyVal
  date : PyVal
  type : PyVal
  link : Option RawLink
  reaction_counters : Option (List RawReactionCounter)
  attaches : Option (List RawAttach)
  deriving DecidableEq, Repr

/-- Converted attachment dict (max_client_wrapper.py:205-241). -/
structure AttachDict where
  id : Int
  type : String
  url : PyVal
  thumbnail_url : PyVal
  file_name : PyVal
  file_size : Option Int
  deriving DecidableEq, Repr

/-- Converted message dict (max_client_wrapper.py:243-254). -/
structure MsgDict where
  id : String
  chat_id : Int
  text : PyVal
  sender_id : PyVal
  date : Option Int
  time : Option Int
  type : Option String
  reply_to : Option String
  reactions : Option (List (String × Int))
  attachments : Option (List AttachDict)
  deriving DecidableEq, Repr

/-- Embeds the `msg_type` tolerant conversion (max_client_wrapper.py:151-157). -/
def msgTypeStr (t : PyVal) : Option String :=
  match t with
  | PyVal.none => Option.none
  | v => Option.some (pyStr v)

/-- Embeds the reply-link extraction (max_client_wrapper.py:160-169). -/
def replyToOf (link : Option RawLink) : Option String :=
  match link with
  | Option.none => Option.none
  | Option.some l =>
    if strUpper (pyStr l.type) = "REPLY" then
      match l.message_id with
      | PyVal.none => Option.none
      | v => Option.some (pyStr v)
    else Option.none

/-- Association-list update with Python-dict overwrite semantics. -/
def setAssoc (m : List (String × Int)) (k : String) (v : Int) : List (String × Int) :=
  if m.any (fun p => p.1 = k) then
    m.map (fun p => if p.1 = k then (k, v) else p)
  else m ++ [(k, v)]

/-- Embeds the reaction-counter extraction (max_client_wrapper.py:171-183).
The inner `try` falls back to a count of 0, so this step never raises. -/
def convReactions : Option (List RawReactionCounter) → List (String × Int)
  | Option.none => []
  | Option.some l =>
    l.foldl
      (fun acc c =>
        if c.reaction = PyVal.none then acc
        else
          let cntv := if pyTruthy c.count then c.count else PyVal.int 0
          let n := match pyInt cntv with | Except.ok k => k | Except.error _ => 0
          setAssoc acc (pyStr c.reaction) n)
      []

/-- Python `int(v) if v is not None else 0`, as in the attachment id
fields. -/
def pyIntOrZero (v : PyVal) : Except String Int :=
  match v with
  | PyVal.none => Except.ok 0
  | w => pyInt w

/-- Embeds one iteration of the attachment loop
(max_client_wrapper.py:188-241).  The cache-buster formatting sits in an
inner `try` whose failure leaves `base_url` unchanged, while the
`int(...)` id and size coercions sit outside any inner handler, so their
failures escape to the outer handler of `_message_to_dict`. -/
def convAttach (msgId : PyVal) (a : RawAttach) : Except String (Option AttachDict) :=
  let aTypeStr := match a.type with | PyVal.none => "UNKNOWN" | v => pyStr v
  if strUpper aTypeStr = "PHOTO" then
    let baseUrl :=
      if pyTruthy a.base_url then
        match pyIntOrZero a.photo_id with
        | Except.ok pid =>
          let sep := if strContains (pyStr a.base_url) "?" then "&" else "?"
          PyVal.str (pyStr a.base_url ++ sep ++ "pid=" ++ toString pid ++ "&mid=" ++ pyStr msgId)
        | Except.error _ => a.base_url
      else a.base_url
    match pyIntOrZero a.photo_id with
    | Except.ok pid =>
      Except.ok (Option.some
        { id := pid, type := "PHOTO", url := baseUrl, thumbnail_url := baseUrl,
          file_name := PyVal.none, file_size := Option.none })
    | Except.error err => Except.error err
  else if strUpper aTypeStr = "FILE" then
    match pyIntOrZero a.file_id with
    | Except.ok fid =>
      match (match a.size with
             | PyVal.none => Except.ok (Option.none : Option Int)
             | v => (pyInt v).map Option.some) with
      | Except.ok fsize =>
        Except.ok (Option.some
          { id := fid, type := "FILE", url := PyVal.none, thumbnail_url := PyVal.none,
            file_name := a.name, file_size := fsize })
      | Except.error err => Except.error err
    | Except.error err => Except.error err
  else if strUpper aTypeStr = "VIDEO" then
    match pyIntOrZero a.video_id with
    | Except.ok vid =>
      Except.ok (Option.some
        { id := vid, type := "VIDEO", url := PyVal.none, thumbnail_url := a.thumbnail,
          file_name := PyVal.none, file_size := Option.none })
    | Except.error err => Except.error err
  else Except.ok Option.none

/-- The attachment loop over the list, preserving order of the appended
converted records. -/
def convAttaches (msgId : PyVal) : List RawAttach → Except String (List AttachDict)
  | [] => Except.ok []
  | a :: rest =>
    match convAttach msgId a with
    | Except.error err => Except.error err
    | Except.ok r =>
      match convAttaches msgId rest with
      | Except.error err => Except.error err
      | Except.ok rs =>
        match r with
        | Option.some d => Except.ok (d :: rs)
        | Option.none => Except.ok rs

/-- The effective chat id value: the `chat_id` / `chatId` field, with the
caller-supplied fallback substituted when the field is absent
(max_client_wrapper.py:138-140). -/
def chatValOf (m : RawMsg) (fallbackChatId : Option Int) : PyVal :=
  match m.chat_id, fallbackChatId with
  | PyVal.none, Option.some c => PyVal.int c
  | v, _ => v

/-- Embeds the body of `_message_to_dict` (max_client_wrapper.py:133-254)
inside its outer `try`: the explicit `return None` cases are
`Except.ok Option.none`; a raised exception is `Except.error`. -/
def messageToDictBody (m : RawMsg) (fallbackChatId : Option Int) :
    Except String (Option MsgDict) :=
  if m.id = PyVal.none then Except.ok Option.none
  else
    if chatValOf m fallbackChatId = PyVal.none then Except.ok Option.none
    else
      match (match m.attaches with
             | Option.none => Except.ok []
             | Option.some l => convAttaches m.id l) with
      | Except.error err => Except.error err
      | Except.ok atts =>
        match pyInt (chatValOf m fallbackChatId) with
        | Except.error err => Except.error err
        | Except.ok chatInt =>
          Except.ok (Option.some
            { id := pyStr m.id
              chat_id := chatInt
              text := if pyTruthy m.text then m.text else PyVal.str ""
              sender_id := m.sender
              date := pyOrOptInt (normalize_time_to_int_ms m.time)
                (normalize_time_to_int_ms m.date)
              time := pyOrOptInt (normalize_time_to_int_ms m.time)
                (normalize_time_to_int_ms m.date)
              type := msgTypeStr m.type
              reply_to := replyToOf m.link
              reactions := if (convReactions m.reaction_counters).isEmpty then Option.none
                else Option.some (convReactions m.reaction_counters)
              attachments := if atts.isEmpty then Option.none else Option.some atts })

/-- Embeds `_message_to_dict` including its outer
`except Exception: return None` (max_client_wrapper.py:255-256). -/
def messageToDict (msg : Option RawMsg) (fallbackChatId : Option Int) : Option MsgDict :=
  match msg with
  | Option.none => Option.none
  | Option.some m =>
    match messageToDictBody m fallbackChatId with
    | Except.ok r => r
    | Except.error _ => Option.none

/-- Sort key `x.get("time", 0) or 0` of the message sort
(max_client_wrapper.py:1237). -/
def msgSortKey (d : MsgDict) : Int :=
  match d.time with
  | Option.none => 0
  | Option.some k => if k = 0 then 0 else k

/-- Embeds the conversion/sort tail of `_get_messages`
(max_client_wrapper.py:1229-1239): convert each record with the chat id
as fallback (dropping `None` results) and sort ascending by the
normalized time key (Python `list.sort` is a stable merge sort). -/
def processMessages (msgs : List RawMsg) (chatId : Int) : List MsgDict :=
  (msgs.filterMap (fun m => messageToDict (Option.some m) (Option.some chatId))).mergeSort
    (fun a b => decide (msgSortKey a ≤ msgSortKey b))

/-- Embeds `_on_message` of `register_event_callbacks`
(max_client_wrapper.py:386-389): convert without a fallback chat id and
emit an event only when the conversion produced a record. -/
def onMessageEventPayloads (msg : Option RawMsg) : List MsgDict :=
  match messageToDict msg Option.none with
  | Option.some d => [d]
  | Option.none => []

/-- Helper: characterize the chat value being unresolvable. -/
theorem chatValOf_eq_none_iff (m : RawMsg) (fb : Option Int) :
    chatValOf m fb = PyVal.none ↔ (m.chat_id = PyVal.none ∧ fb = Option.none) := by
  cases hm : m.chat_id <;> cases fb <;> simp [chatValOf, hm]

/-- Helper: a successful conversion reduces the outer wrapper to its body. -/
theorem messageToDict_some {m : RawMsg} {fb : Option Int} {d : MsgDict}
    (h : messageToDict (Option.some m) fb = Option.some d) :
    messageToDictBody m fb = Except.ok (Option.some d) := by
  simp only [messageToDict] at h
  cases hb : messageToDictBody m fb with
  | ok r =>
    rw [hb] at h
    exact congrArg Except.ok h
  | error e =>
    rw [hb] at h
    exact Option.noConfusion h

/-- Helper: the record produced by a successful conversion carries the
normalized time value. -/
theorem messageToDictBody_ok_some_time {m : RawMsg} {fb : Option Int} {d : MsgDict}
    (h : messageToDictBody m fb = Except.ok (Option.some d)) :
    d.time = pyOrOptInt (normalize_time_to_int_ms m.time) (normalize_time_to_int_ms m.date) := by
  unfold messageToDictBody at h
  split at h
  · simp at h
  · split at h
    · simp at h
    · split at h
      · simp at h
      · split at h
        · simp at h
        · simp only [Except.ok.injEq, Option.some.injEq] at h
          subst h
          rfl

/-- Helper: the body returns `ok none` exactly for a missing id or an
unresolvable chat id. -/
theorem messageToDictBody_ok_none_iff (m : RawMsg) (fb : Option Int) :
    messageToDictBody m fb = Except.ok Option.none ↔
      (m.id = PyVal.none ∨ (m.chat_id = PyVal.none ∧ fb = Option.none)) := by
  constructor
  · intro h
    unfold messageToDictBody at h
    split at h
    · left; assumption
    · split at h
      · right; exact (chatValOf_eq_none_iff m fb).1 (by assumption)
      · split at h
        · simp at h
        · split at h
          · simp at h
          · simp at h
  · intro h
    unfold messageToDictBody
    rcases h with h | h
    · simp [h]
    · by_cases hid : m.id = PyVal.none
      · simp [hid]
      · simp [hid, (chatValOf_eq_none_iff m fb).2 h]

/-- C4: the time-conversion table of `_normalize_time_to_int_ms`, the
propagation of the normalized value into each converted record, and the
fact that the message list returned by `_get_messages` is a permutation
of the converted records sorted ascending by the normalized time key,
independent of the order the server returned them in. -/
theorem message_time_normalized_and_sorted :
    (∀ n : Int, normalize_time_to_int_ms (PyVal.int n) = Option.some n) ∧
    (∀ q : ℚ, normalize_time_to_int_ms (PyVal.float q) = Option.some (ratTruncToInt q)) ∧
    (∀ b : Bool, normalize_time_to_int_ms (PyVal.bool b) =
      Option.some (if b then 1 else 0)) ∧
    (∀ t : ℚ, normalize_time_to_int_ms (PyVal.dt t) =
      Option.some (ratTruncToInt (t * 1000))) ∧
    (∀ v : String, trimChars v.data ≠ [] → (trimChars v.data).all Char.isDigit = true →
      normalize_time_to_int_ms (PyVal.str v) =
        Option.some (digitsToNat (trimChars v.data) : Int)) ∧
    (∀ v : String, (trimChars v.data).all Char.isDigit = false →
      normalize_time_to_int_ms (PyVal.str v) = Option.none) ∧
    normalize_time_to_int_ms PyVal.none = Option.none ∧
    (∀ (m : RawMsg) (fb : Option Int) (d : MsgDict),
      messageToDict (Option.some m) fb = Option.some d →
      d.time = pyOrOptInt (normalize_time_to_int_ms m.time)
        (normalize_time_to_int_ms m.date)) ∧
    (∀ (msgs : List RawMsg) (chatId : Int),
      (processMessages msgs chatId).Perm
        (msgs.filterMap (fun m => messageToDict (Option.some m) (Option.some chatId)))) ∧
    (∀ (msgs : List RawMsg) (chatId : Int),
      (processMessages msgs chatId).Pairwise
        (fun a b => msgSortKey a ≤ msgSortKey b)) := by
  refine ⟨fun n => rfl, fun q => rfl, fun b => rfl, fun t => rfl, ?_, ?_, rfl, ?_, ?_, ?_⟩
  · intro v h1 h2
    simp [normalize_time_to_int_ms, h1, h2]
  · intro v h
    simp [normalize_time_to_int_ms, h]
  · intro m fb d h
    exact messageToDictBody_ok_some_time (messageToDict_some h)
  · intro msgs chatId
    exact List.mergeSort_perm _ _
  · intro msgs chatId
    have hs := @List.sorted_mergeSort MsgDict
      (fun a b => decide (msgSortKey a ≤ msgSortKey b))
      (fun a b c hab hbc => by
        simp only [decide_eq_true_eq] at hab hbc ⊢
        omega)
      (fun a b => by
        rcases Int.le_total (msgSortKey a) (msgSortKey b) with h | h <;> simp [h])
      (msgs.filterMap (fun m => messageToDict (Option.some m) (Option.some chatId)))
    exact hs.imp (fun hab => by simpa using hab)

/-- A concrete raw message used by the witnesses. -/
def rawMsgEx : RawMsg :=
  { id := PyVal.str "m1", chat_id := PyVal.none, text := PyVal.str "hi",
    sender := PyVal.int 2, time := PyVal.int 5, date := PyVal.none,
    type := PyVal.none, link := Option.none, reaction_counters := Option.none,
    attaches := Option.none }

/-- The record `rawMsgEx` converts to with fallback chat id 7. -/
def msgDictEx : MsgDict :=
  { id := "m1", chat_id := 7, text := PyVal.str "hi", sender_id := PyVal.int 2,
    date := Option.some 5, time := Option.some 5, type := Option.none,
    reply_to := Option.none, reactions := Option.none, attachments := Option.none }

/-- Witness for C4: a concrete digit string normalizes to its value, and
a concrete conversion carries the normalized time. -/
theorem message_time_normalized_and_sorted_witness :
    normalize_time_to_int_ms (PyVal.str " 123 ") = Option.some 123 ∧
    messageToDict (Option.some rawMsgEx) (Option.some 7) = Option.some msgDictEx ∧
    msgDictEx.time = pyOrOptInt (normalize_time_to_int_ms rawMsgEx.time)
      (normalize_time_to_int_ms rawMsgEx.date) := by
  refine ⟨?_, by decide, ?_⟩
  · exact message_time_normalized_and_sorted.2.2.2.2.1 " 123 " (by decide) (by decide)
  · exact message_time_normalized_and_sorted.2.2.2.2.2.2.2.1 rawMsgEx (Option.some 7)
      msgDictEx (by decide)

/-- C10: the conversion never raises (it is total into an optional
record); it returns `none` exactly for a `None` input, a missing id, an
unresolvable chat id, or a conversion exception; and both the history
pipeline and the push-event callback silently drop `none` results, so
every delivered record is a successful conversion. -/
theorem message_to_dict_none_characterization :
    (∀ fb : Option Int, messageToDict Option.none fb = Option.none) ∧
    (∀ (m : RawMsg) (fb : Option Int),
      messageToDict (Option.some m) fb = Option.none ↔
        (m.id = PyVal.none ∨ (m.chat_id = PyVal.none ∧ fb = Option.none) ∨
          ∃ err, messageToDictBody m fb = Except.error err)) ∧
    (∀ (msgs : List RawMsg) (chatId : Int) (d : MsgDict),
      d ∈ processMessages msgs chatId →
        ∃ m, m ∈ msgs ∧ messageToDict (Option.some m) (Option.some chatId) =
          Option.some d) ∧
    (∀ (msg : Option RawMsg) (d : MsgDict),
      d ∈ onMessageEventPayloads msg → messageToDict msg Option.none = Option.some d) := by
  refine ⟨fun fb => rfl, ?_, ?_, ?_⟩
  · intro m fb
    constructor
    · intro h
      simp only [messageToDict] at h
      cases hb : messageToDictBody m fb with
      | ok r =>
        rw [hb] at h
        cases r with
        | none =>
          rcases (messageToDictBody_ok_none_iff m fb).1 hb with h2 | h2
          · exact Or.inl h2
          · exact Or.inr (Or.inl h2)
        | some d => exact Option.noConfusion h
      | error e => exact Or.inr (Or.inr ⟨e, rfl⟩)
    · intro h
      simp only [messageToDict]
      rcases h with h | h | ⟨err, herr⟩
      · rw [(messageToDictBody_ok_none_iff m fb).2 (Or.inl h)]
      · rw [(messageToDictBody_ok_none_iff m fb).2 (Or.inr h)]
      · rw [herr]
  · intro msgs chatId d h
    unfold processMessages at h
    have h2 := (List.mergeSort_perm
      (msgs.filterMap (fun m => messageToDict (Option.some m) (Option.some chatId)))
      (fun a b => decide (msgSortKey a ≤ msgSortKey b))).mem_iff.1 h
    rcases List.mem_filterMap.1 h2 with ⟨m, hm, hconv⟩
    exact ⟨m, hm, hconv⟩
  · intro msg d h
    unfold onMessageEventPayloads at h
    cases hc : messageToDict msg Option.none with
    | none =>
      rw [hc] at h
      exact absurd h (by simp)
    | some d2 =>
      rw [hc] at h
      have hd : d = d2 := by simpa using h
      rw [hd]

/-- A concrete raw message with its own chat id, as pushed to the event
callback. -/
def rawMsgEv : RawMsg :=
  { id := PyVal.str "m2", chat_id := PyVal.int 9, text := PyVal.str "yo",
    sender := PyVal.int 3, time := PyVal.int 8, date := PyVal.none,
    type := PyVal.none, link := Option.none, reaction_counters := Option.none,
    attaches := Option.none }

/-- The record `rawMsgEv` converts to without any fallback chat id. -/
def msgDictEv : MsgDict :=
  { id := "m2", chat_id := 9, text := PyVal.str "yo", sender_id := PyVal.int 3,
    date := Option.some 8, time := Option.some 8, type := Option.none,
    reply_to := Option.none, reactions := Option.none, attachments := Option.none }

/-- Witness for C10: a concrete event payload delivered by the callback
is a successful conversion. -/
theorem message_to_dict_none_characterization_witness :
    msgDictEv ∈ onMessageEventPayloads (Option.some rawMsgEv) ∧
    messageToDict (Option.some rawMsgEv) Option.none = Option.some msgDictEv :=
  ⟨by decide,
    message_to_dict_none_characterization.2.2.2 (Option.some rawMsgEv) msgDictEv (by decide)⟩

/-! ## Chat-list de-duplication (`_upsert` in `get_chats`) -/

/-- A chat record dict as built by `get_chats`
(max_client_wrapper.py:1028-1078), with the fields `_upsert` reads. -/
structure ChatRec where
  id : PyVal
  title : PyVal
  type : PyVal
  photo_id : PyVal
  icon_url : PyVal
  unread_count : PyVal
  cid : PyVal
  deriving DecidableEq, Repr

/-- The fixed type priority `prio.get(t, -1)` with
`prio = DIALOG:0, CHAT:1, CHANNEL:2` (max_client_wrapper.py:906). -/
def chatPrio (t : String) : Int :=
  if t = "DIALOG" then 0
  else if t = "CHAT" then 1
  else if t = "CHANNEL" then 2
  else -1

/-- The effective type string `str(cd.get("type") or "unknown").upper()`
(max_client_wrapper.py:918-919). -/
def chatEffType (c : ChatRec) : String :=
  strUpper (pyStr (if pyTruthy c.type then c.type else PyVal.str "unknown"))

/-- The backfill step of `_upsert` (max_client_wrapper.py:923-929): keep
the current record, filling in a falsy title and `None` icon/photo fields
from the newly inserted record. -/
def chatFillMissing (cur cd : ChatRec) : ChatRec :=
  { cur with
    title := if pyTruthy cur.title = false ∧ pyTruthy cd.title = true then cd.title
      else cur.title,
    icon_url := if cur.icon_url = PyVal.none ∧ cd.icon_url ≠ PyVal.none then cd.icon_url
      else cur.icon_url,
    photo_id := if cur.photo_id = PyVal.none ∧ cd.photo_id ≠ PyVal.none then cd.photo_id
      else cur.photo_id }

/-- Embeds `_upsert` (max_client_wrapper.py:909-929) over the `by_id`
map: a record whose id does not coerce to an int is skipped; a fresh id
is inserted; a strictly higher-priority type replaces the stored record
wholesale; otherwise the stored record is kept with missing fields
backfilled from the new one. -/
def upsert (by_id : Int → Option ChatRec) (cd : ChatRec) : Int → Option ChatRec :=
  match pyInt cd.id with
  | Except.error _ => by_id
  | Except.ok cid =>
    match by_id cid with
    | Option.none => fun k => if k = cid then Option.some cd else by_id k
    | Option.some cur =>
      if chatPrio (chatEffType cd) > chatPrio (chatEffType cur) then
        fun k => if k = cid then Option.some cd else by_id k
      else
        fun k => if k = cid then Option.some (chatFillMissing cur cd) else by_id k

/-- The empty `by_id` map. -/
def emptyChats : Int → Option ChatRec := fun _ => Option.none

/-- A group-chat record with id 1 carrying a title and an icon. -/
def chatRecA : ChatRec :=
  { id := PyVal.int 1, title := PyVal.str "Friends", type := PyVal.str "CHAT",
    photo_id := PyVal.none, icon_url := PyVal.str "http://icons/1",
    unread_count := PyVal.int 0, cid := PyVal.none }

/-- A channel record with the same id 1 but an empty title and no icon. -/
def chanRecB : ChatRec :=
  { id := PyVal.int 1, title := PyVal.str "", type := PyVal.str "CHANNEL",
    photo_id := PyVal.none, icon_url := PyVal.none,
    unread_count := PyVal.int 0, cid := PyVal.none }

/-- Counterexample to C1: inserting the lower-priority CHAT record first
and the CHANNEL record second (the order `get_chats` actually uses), the
merged entry for id 1 is the channel record unchanged: its empty title
and missing icon are NOT backfilled from the chat record, even though
the chat record has both.  So the backfill does not happen "regardless of
the order in which the two records are inserted". -/
theorem upsert_backfill_order_dependent_counterexample :
    upsert (upsert emptyChats chatRecA) chanRecB 1 = Option.some chanRecB ∧
    pyTruthy chatRecA.title = true ∧
    chatRecA.icon_url ≠ PyVal.none ∧
    pyTruthy chanRecB.title = false ∧
    chanRecB.icon_url = PyVal.none := by
  refine ⟨?_, by decide, by decide, by decide, by decide⟩
  decide

/-- Helper: inserting a record with a fresh id stores it. -/
theorem upsert_fresh (by_id : Int → Option ChatRec) (cd : ChatRec) (cid : Int)
    (hcd : pyInt cd.id = Except.ok cid) (hnone : by_id cid = Option.none) :
    upsert by_id cd cid = Option.some cd := by
  unfold upsert
  rw [hcd]
  simp [hnone]

/-- Helper: inserting a record whose id is already stored either replaces
the stored record (strictly higher priority) or keeps it with the missing
fields backfilled. -/
theorem upsert_hit (by_id : Int → Option ChatRec) (cur cd : ChatRec) (cid : Int)
    (hcd : pyInt cd.id = Except.ok cid) (hcur : by_id cid = Option.some cur) :
    upsert by_id cd cid =
      (if chatPrio (chatEffType cd) > chatPrio (chatEffType cur) then Option.some cd
       else Option.some (chatFillMissing cur cd)) := by
  unfold upsert
  rw [hcd]
  simp only [hcur]
  split <;> simp

/-- C1 (amended): the merged entry always keeps the type of the
higher-priority record; the missing title/icon backfill happens exactly
when the lower-priority (or equal-priority) record is inserted second —
a strictly higher-priority record inserted second replaces the stored
record wholesale, with no backfill. -/
theorem upsert_priority_and_backfill
    (cur cd : ChatRec) (cid : Int)
    (hcur : pyInt cur.id = Except.ok cid) (hcd : pyInt cd.id = Except.ok cid) :
    (chatPrio (chatEffType cd) > chatPrio (chatEffType cur) →
      upsert (upsert emptyChats cur) cd cid = Option.some cd) ∧
    (chatPrio (chatEffType cd) ≤ chatPrio (chatEffType cur) →
      upsert (upsert emptyChats cur) cd cid = Option.some (chatFillMissing cur cd) ∧
      (chatFillMissing cur cd).type = cur.type ∧
      (pyTruthy cur.title = false → pyTruthy cd.title = true →
        (chatFillMissing cur cd).title = cd.title) ∧
      (cur.icon_url = PyVal.none → cd.icon_url ≠ PyVal.none →
        (chatFillMissing cur cd).icon_url = cd.icon_url)) := by
  have hstore : upsert emptyChats cur cid = Option.some cur :=
    upsert_fresh emptyChats cur cid hcur rfl
  have hh := upsert_hit (upsert emptyChats cur) cur cd cid hcd hstore
  constructor
  · intro hgt
    rw [hh, if_pos hgt]
  · intro hle
    refine ⟨?_, rfl, ?_, ?_⟩
    · rw [hh, if_neg (by omega)]
    · intro ht hcdt
      simp [chatFillMissing, ht, hcdt]
    · intro hi hcdi
      simp [chatFillMissing, hi, hcdi]

/-- Witness for the amended C1: the channel record inserted first keeps
its type while the chat record inserted second backfills the missing
title and icon. -/
theorem upsert_priority_and_backfill_witness :
    upsert (upsert emptyChats chanRecB) chatRecA 1 =
      Option.some (chatFillMissing chanRecB chatRecA) ∧
    (chatFillMissing chanRecB chatRecA).type = PyVal.str "CHANNEL" ∧
    (chatFillMissing chanRecB chatRecA).title = PyVal.str "Friends" ∧
    (chatFillMissing chanRecB chatRecA).icon_url = PyVal.str "http://icons/1" := by
  have h := upsert_priority_and_backfill chanRecB chatRecA 1 rfl rfl
  have h2 := h.2 (by decide)
  exact ⟨h2.1, by decide, by decide, by decide⟩

/-! ## Event bridge (`_emit_event`) -/

/-- The events directory: visible event files and dot-prefixed temporary
files, each with its content. -/
structure FsState where
  eventFiles : List (String × String)
  tmpFiles : List (String × String)
  deriving DecidableEq, Repr

/-- Failure oracle for one `_emit_event` call: whether `makedirs` and
`open` succeed, whether `json.dump` fails after writing a partial prefix
(`Option.some partial content`), and whether `os.replace` succeeds. -/
structure EmitOracle where
  mkdirOk : Bool
  openOk : Bool
  dumpFail : Option String
  replaceOk : Bool
  deriving DecidableEq, Repr

/-- Embeds the body of `_emit_event` (max_client_wrapper.py:353-362):
serialize into `.{filename}.tmp` inside the events directory, then
atomically rename onto `filename`.  The second component is the
exception escaping the body, if any. -/
def emitEventBody (fs : FsState) (o : EmitOracle) (filename fullContent : String) :
    FsState × Option String :=
  if o.mkdirOk = false then (fs, Option.some "makedirs failed")
  else if o.openOk = false then (fs, Option.some "open failed")
  else
    match o.dumpFail with
    | Option.some partialContent =>
      ({ fs with tmpFiles := fs.tmpFiles ++ [("." ++ filename ++ ".tmp", partialContent)] },
       Option.some "json.dump failed")
    | Option.none =>
      if o.replaceOk = false then
        ({ fs with tmpFiles := fs.tmpFiles ++ [("." ++ filename ++ ".tmp", fullContent)] },
         Option.some "os.replace failed")
      else
        ({ eventFiles := fs.eventFiles ++ [(filename, fullContent)], tmpFiles := fs.tmpFiles },
         Option.none)

/-- Embeds `_emit_event` including its outer `except Exception: pass`
(max_client_wrapper.py:363-365): the body's exception is swallowed. -/
def emitEvent (fs : FsState) (o : EmitOracle) (filename fullContent : String) :
    FsState × Option String :=
  ((emitEventBody fs o filename fullContent).1, Option.none)

/-- C5: event emission never raises to its caller, and for every failure
oracle (including a failing serialization of a malformed payload) the
visible event files either are unchanged or gain exactly the one fully
written file; a partially-written temporary never becomes visible as an
event file. -/
theorem emit_event_never_raises_and_atomic
    (fs : FsState) (o : EmitOracle) (filename fullContent : String) :
    (emitEvent fs o filename fullContent).2 = Option.none ∧
    ((emitEvent fs o filename fullContent).1.eventFiles = fs.eventFiles ∨
      (emitEvent fs o filename fullContent).1.eventFiles =
        fs.eventFiles ++ [(filename, fullContent)]) := by
  refine ⟨rfl, ?_⟩
  rcases o with ⟨mk, op, df, rp⟩
  cases mk <;> cases op <;> cases df <;> cases rp <;>
    simp [emitEvent, emitEventBody]

/-! ## Foreground exception boundary -/

/-- A structured result surfaced to the host: a success flag with either
a payload or an error string. -/
structure WrapperResult where
  success : Bool
  error : Option String
  payload : Option String
  deriving DecidableEq, Repr

/-- The outer `try/except Exception as e: return ...` every foreground
operation wraps its body in (e.g. max_client_wrapper.py:1266-1268): a
raised exception is converted to a structured failure. -/
def foregroundBoundary (body : Except PyErr WrapperResult) : WrapperResult :=
  match body with
  | Except.ok r => r
  | Except.error e =>
    { success := false, error := Option.some e.msg, payload := Option.none }

/-- Embeds the body of `send_message` (max_client_wrapper.py:1253-1264):
the session guard may raise, the client send may raise or return a
record, and an unconvertible record yields an explicit failure. -/
def sendMessageBody (ensureOutcome : Option PyErr)
    (sendOutcome : Except PyErr (Option RawMsg)) (chatId : Int) :
    Except PyErr WrapperResult :=
  match ensureOutcome with
  | Option.some e => Except.error e
  | Option.none =>
    match sendOutcome with
    | Except.error e => Except.error e
    | Except.ok msg =>
      match messageToDict msg (Option.some chatId) with
      | Option.none =>
        Except.ok { success := false, error := Option.some "Invalid message response",
                    payload := Option.none }
      | Option.some d =>
        Except.ok { success := true, error := Option.none, payload := Option.some d.id }

/-- Embeds `send_message` (max_client_wrapper.py:1245-1268): the
not-initialized guard, then the boundary around the body; `bridgeOutcome`
is an exception raised by the synchronous bridge itself (timeout, loop
startup failure), also caught at the boundary. -/
def sendMessageOp (clientInit : Bool) (bridgeOutcome ensureOutcome : Option PyErr)
    (sendOutcome : Except PyErr (Option RawMsg)) (chatId : Int) : WrapperResult :=
  if clientInit = false then
    { success := false, error := Option.some "Client not initialized", payload := Option.none }
  else
    match bridgeOutcome with
    | Option.some e => foregroundBoundary (Except.error e)
    | Option.none => foregroundBoundary (sendMessageBody ensureOutcome sendOutcome chatId)

/-- Embeds the outer `get_messages` (max_client_wrapper.py:1086-1243):
the not-initialized guard, a possible bridge exception, otherwise the
retry loop result. -/
def getMessagesOp (clientInit : Bool) (bridgeOutcome : Option PyErr)
    (outcome : Nat → Option PyErr) (reconnect : Nat → Bool) : GmResult :=
  if clientInit = false then
    { success := false, error := Option.some "Client not initialized" }
  else
    match bridgeOutcome with
    | Option.some e => { success := false, error := Option.some e.msg }
    | Option.none => (fetchHistoryGo outcome reconnect 0 0 true 0 []).1

/-- Helper: every result of the fetch loop is structured — success with
no error, or failure with an error string. -/
theorem fetchHistoryGo_structured (fuel : Nat) :
    ∀ (outcome : Nat → Option PyErr) (reconnect : Nat → Bool)
      (retry idx : Nat) (connected : Bool) (rIdx : Nat) (delays : List ℚ),
      3 - retry ≤ fuel →
      ((fetchHistoryGo outcome reconnect retry idx connected rIdx delays).1.success = true ∧
        (fetchHistoryGo outcome reconnect retry idx connected rIdx delays).1.error =
          Option.none) ∨
      ((fetchHistoryGo outcome reconnect retry idx connected rIdx delays).1.success = false ∧
        (fetchHistoryGo outcome reconnect retry idx connected rIdx delays).1.error ≠
          Option.none) := by
  induction fuel with
  | zero =>
    intro outcome reconnect retry idx connected rIdx delays hf
    rw [fetchHistoryGo]
    split
    · right; simp
    · split
      · left; simp
      · split
        · split
          · exact absurd (by assumption) (by omega)
          · right; simp
        · right; simp
  | succ n ih =>
    intro outcome reconnect retry idx connected rIdx delays hf
    rw [fetchHistoryGo]
    split
    · right; simp
    · split
      · left; simp
      · split
        · split
          · by_cases hrc : reconnect (if connected then rIdx else rIdx + 1) = true
            · rw [if_pos hrc]
              apply ih
              omega
            · rw [if_neg hrc]
              apply ih
              omega
          · right; simp
        · right; simp

/-- C6: a raised exception at the boundary always becomes a structured
failure with an error string, and the modelled foreground operations
(`send_message` and `get_messages`, whatever the outcomes of the client
calls and of the synchronous bridge) always return a structured result:
success, or failure carrying an error string — never a raw exception. -/
theorem foreground_ops_catch_all :
    (∀ e : PyErr, foregroundBoundary (Except.error e) =
      { success := false, error := Option.some e.msg, payload := Option.none }) ∧
    (∀ (clientInit : Bool) (bridgeOutcome ensureOutcome : Option PyErr)
        (sendOutcome : Except PyErr (Option RawMsg)) (chatId : Int),
      (sendMessageOp clientInit bridgeOutcome ensureOutcome sendOutcome chatId).success =
          true ∨
        ((sendMessageOp clientInit bridgeOutcome ensureOutcome sendOutcome chatId).success =
            false ∧
          (sendMessageOp clientInit bridgeOutcome ensureOutcome sendOutcome chatId).error ≠
            Option.none)) ∧
    (∀ (clientInit : Bool) (bridgeOutcome : Option PyErr)
        (outcome : Nat → Option PyErr) (reconnect : Nat → Bool),
      (getMessagesOp clientInit bridgeOutcome outcome reconnect).success = true ∨
        ((getMessagesOp clientInit bridgeOutcome outcome reconnect).success = false ∧
          (getMessagesOp clientInit bridgeOutcome outcome reconnect).error ≠
            Option.none)) := by
  refine ⟨fun e => rfl, ?_, ?_⟩
  · intro clientInit bridgeOutcome ensureOutcome sendOutcome chatId
    cases clientInit
    · right
      simp [sendMessageOp]
    · cases bridgeOutcome with
      | some e =>
        right
        simp [sendMessageOp, foregroundBoundary]
      | none =>
        cases ensureOutcome with
        | some e =>
          right
          simp [sendMessageOp, sendMessageBody, foregroundBoundary]
        | none =>
          cases sendOutcome with
          | error e =>
            right
            simp [sendMessageOp, sendMessageBody, foregroundBoundary]
          | ok msg =>
            cases hm : messageToDict msg (Option.some chatId) with
            | none =>
              right
              simp [sendMessageOp, sendMessageBody, foregroundBoundary, hm]
            | some d =>
              left
              simp [sendMessageOp, sendMessageBody, foregroundBoundary, hm]
  · intro clientInit bridgeOutcome outcome reconnect
    cases clientInit
    · right
      simp [getMessagesOp]
    · cases bridgeOutcome with
      | some e =>
        right
        simp [getMessagesOp]
      | none =>
        rcases fetchHistoryGo_structured 3 outcome reconnect 0 0 true 0 [] (by omega) with
          ⟨h1, h2⟩ | ⟨h1, h2⟩
        · left
          simpa [getMessagesOp] using h1
        · right
          constructor
          · simpa [getMessagesOp] using h1
          · simpa [getMessagesOp] using h2

/-! ## Execution-loop submission guard (`_run_async`) -/

/-- Observable behaviour of one `_run_async` call: whether the coroutine
was handed to the loop and whether the caller blocked on the future. -/
structure RunAsyncTrace where
  scheduled : Bool
  blockedOnResult : Bool
  deriving DecidableEq, Repr

/-- Embeds `_run_async` (max_client_wrapper.py:597-615): after ensuring
the loop thread, a call made from the loop's own thread raises a
`RuntimeError` before `run_coroutine_threadsafe` is reached; any other
caller schedules the coroutine and blocks on the future, whose outcome
(value or re-raised exception) is the oracle `outcome`. -/
def runAsyncModel (loopThreadIdent : Option Nat) (callerIdent : Nat)
    (outcome : Except PyErr String) : Except PyErr String × RunAsyncTrace :=
  match loopThreadIdent with
  | Option.some t =>
    if callerIdent = t then
      (Except.error { typeName := "RuntimeError",
                      msg := "_run_async called from asyncio loop thread" },
       { scheduled := false, blockedOnResult := false })
    else (outcome, { scheduled := true, blockedOnResult := true })
  | Option.none => (outcome, { scheduled := true, blockedOnResult := true })

/-- C7: a synchronous submission from the loop's own owning thread fails
fast with the contract-violation `RuntimeError`: the coroutine is never
scheduled and the caller never blocks waiting on a result. -/
theorem run_async_from_loop_thread_fails_fast
    (t callerIdent : Nat) (outcome : Except PyErr String)
    (h : callerIdent = t) :
    runAsyncModel (Option.some t) callerIdent outcome =
      (Except.error { typeName := "RuntimeError",
                      msg := "_run_async called from asyncio loop thread" },
       { scheduled := false, blockedOnResult := false }) := by
  simp [runAsyncModel, h]

/-- Witness for C7: thread 42 submitting to its own loop. -/
theorem run_async_from_loop_thread_fails_fast_witness :
    runAsyncModel (Option.some 42) 42 (Except.ok "payload") =
      (Except.error { typeName := "RuntimeError",
                      msg := "_run_async called from asyncio loop thread" },
       { scheduled := false, blockedOnResult := false }) :=
  run_async_from_loop_thread_fails_fast 42 42 (Except.ok "payload") rfl

/-! ## Stop ordering (`stop_client`) -/

/-- Observable events of one `stop_client` call, in order. -/
inductive StopEv where
  | kaStopSignalSet
  | kaTaskCancelled
  | kaTaskAwaited
  | clientClosed
  | loopStopped
  deriving DecidableEq, Repr

/-- Embeds `stop_client` (max_client_wrapper.py:1898-1930): inside the
loop, the keep-alive stop flag is set (if the flag object exists), the
keep-alive task is cancelled and awaited with exceptions suppressed (if
the task exists), then the client is closed; only after the coroutine
returns does the caller stop the loop thread.  If `client.close()` (or
the bridge) raises, the outer boundary converts it to a failure and the
loop thread is NOT stopped on this path. -/
def stopClientTrace (clientInit kaStopPresent kaTaskPresent closeOk : Bool) :
    List StopEv × WrapperResult :=
  if clientInit = false then
    ([], { success := true, error := Option.none, payload := Option.some "Client not initialized" })
  else
    (if closeOk = false then
      ((if kaStopPresent then [StopEv.kaStopSignalSet] else []) ++
        (if kaTaskPresent then [StopEv.kaTaskCancelled, StopEv.kaTaskAwaited] else []),
       { success := false, error := Option.some "close failed", payload := Option.none })
    else
      ((if kaStopPresent then [StopEv.kaStopSignalSet] else []) ++
        (if kaTaskPresent then [StopEv.kaTaskCancelled, StopEv.kaTaskAwaited] else []) ++
        [StopEv.clientClosed, StopEv.loopStopped],
       { success := true, error := Option.none, payload := Option.some "Client stopped" }))

/-- C8: with the client initialized and the keep-alive task present, the
keep-alive task is always cancelled and awaited, and whenever the loop
is stopped the await of the cancelled daemon strictly precedes the
loop-stopped event. -/
theorem stop_cancels_keepalive_before_loop_stop
    (kaStopPresent closeOk : Bool) :
    StopEv.kaTaskAwaited ∈ (stopClientTrace true kaStopPresent true closeOk).1 ∧
    (StopEv.loopStopped ∈ (stopClientTrace true kaStopPresent true closeOk).1 →
      (stopClientTrace true kaStopPresent true closeOk).1.indexOf StopEv.kaTaskAwaited <
        (stopClientTrace true kaStopPresent true closeOk).1.indexOf StopEv.loopStopped) := by
  cases kaStopPresent <;> cases closeOk <;> refine ⟨by decide, fun hmem => by decide⟩

/-- Witness for C8: the full stop path with the stop flag present and a
clean close. -/
theorem stop_cancels_keepalive_before_loop_stop_witness :
    StopEv.kaTaskAwaited ∈ (stopClientTrace true true true true).1 ∧
    (stopClientTrace true true true true).1.indexOf StopEv.kaTaskAwaited <
      (stopClientTrace true true true true).1.indexOf StopEv.loopStopped :=
  ⟨(stop_cancels_keepalive_before_loop_stop true true).1,
    (stop_cancels_keepalive_before_loop_stop true true).2 (by decide)⟩

/-! ## Session-guard lock discipline (`_ensure_connected_and_session`) -/

/-- Program counter of one `ensure_ready` caller: before requesting the
session lock, blocked waiting for it, holding it while the physical
(re)connect / re-sync attempt is in flight, and finished. -/
inductive GuardPc where
  | start
  | waitLock
  | connecting
  | finished
  deriving DecidableEq, Repr

/-- Global state of the session guard: each caller's program counter and
the holder of the session-wide `asyncio.Lock`. -/
structure GuardSys where
  pc : Nat → GuardPc
  lock : Option Nat

/-- Pointwise update of one caller's program counter. -/
def setPc (pc : Nat → GuardPc) (i : Nat) (v : GuardPc) : Nat → GuardPc :=
  fun k => if k = i then v else pc k

/-- Interleaving semantics of `_ensure_connected_and_session`
(max_client_wrapper.py:291-323): a caller requests the lock, acquires it
only when it is free (`async with self._conn_lock`), performs the
connect / re-sync attempt while holding it, and releases it on exit.
All callers are coroutines of the single execution loop, so each
transition is one atomic cooperative step. -/
inductive GuardStep : GuardSys → GuardSys → Prop where
  | request (s1 : GuardSys) (i : Nat) :
      s1.pc i = GuardPc.start →
      GuardStep s1 { pc := setPc s1.pc i GuardPc.waitLock, lock := s1.lock }
  | acquire (s1 : GuardSys) (i : Nat) :
      s1.pc i = GuardPc.waitLock → s1.lock = Option.none →
      GuardStep s1 { pc := setPc s1.pc i GuardPc.connecting, lock := Option.some i }
  | release (s1 : GuardSys) (i : Nat) :
      s1.pc i = GuardPc.connecting → s1.lock = Option.some i →
      GuardStep s1 { pc := setPc s1.pc i GuardPc.finished, lock := Option.none }

/-- Initial state: no caller started, lock free. -/
def guardInit : GuardSys :=
  { pc := fun _ => GuardPc.start, lock := Option.none }

/-- States reachable by any interleaving of concurrent callers. -/
inductive GuardReachable : GuardSys → Prop where
  | init : GuardReachable guardInit
  | step {s t : GuardSys} : GuardReachable s → GuardStep s t → GuardReachable t

/-- Helper invariant: a caller inside the connect section holds the lock. -/
theorem guard_lock_inv {s : GuardSys} (h : GuardReachable s) :
    ∀ i, s.pc i = GuardPc.connecting → s.lock = Option.some i := by
  induction h with
  | init =>
    intro i hi
    simp [guardInit] at hi
  | step hr hstep ih =>
    cases hstep with
    | request j hj =>
      intro i hi
      by_cases hij : i = j
      · subst hij
        simp [setPc] at hi
      · simp only [setPc, if_neg hij] at hi
        exact ih i hi
    | acquire j hj hlock =>
      intro i hi
      by_cases hij : i = j
      · subst hij
        rfl
      · simp only [setPc, if_neg hij] at hi
        have hcontra := ih i hi
        rw [hlock] at hcontra
        exact absurd hcontra (by simp)
    | release j hj hlock =>
      intro i hi
      by_cases hij : i = j
      · subst hij
        simp [setPc] at hi
      · simp only [setPc, if_neg hij] at hi
        have hsome := ih i hi
        rw [hlock] at hsome
        have : j = i := Option.some.inj hsome
        exact absurd this.symm hij

/-- C9: in every state reachable by any interleaving of concurrent
`ensure_ready` callers, at most one caller has a physical (re)connect
attempt in flight: the session-wide lock totally orders them. -/
theorem ensure_ready_single_connect_in_flight {s : GuardSys}
    (h : GuardReachable s) (i j : Nat)
    (hi : s.pc i = GuardPc.connecting) (hj : s.pc j = GuardPc.connecting) :
    i = j := by
  have h1 := guard_lock_inv h i hi
  have h2 := guard_lock_inv h j hj
  rw [h1] at h2
  exact Option.some.inj h2

/-- Intermediate state: caller 0 has requested the lock. -/
def guardS1 : GuardSys :=
  { pc := setPc (fun _ => GuardPc.start) 0 GuardPc.waitLock, lock := Option.none }

/-- State with caller 0 holding the lock inside the connect section. -/
def guardS2 : GuardSys :=
  { pc := setPc guardS1.pc 0 GuardPc.connecting, lock := Option.some 0 }

/-- Witness for C9: a concrete reachable state with caller 0 connecting,
to which the mutual-exclusion theorem applies. -/
theorem ensure_ready_single_connect_in_flight_witness :
    GuardReachable guardS2 ∧ guardS2.pc 0 = GuardPc.connecting ∧ (0 : Nat) = 0 := by
  have hreach : GuardReachable guardS2 :=
    GuardReachable.step
      (GuardReachable.step GuardReachable.init (GuardStep.request guardInit 0 rfl))
      (GuardStep.acquire guardS1 0 rfl rfl)
  exact ⟨hreach, rfl, ensure_ready_single_connect_in_flight hreach 0 0 rfl rfl⟩
